import Mathlib

/-!
Shallow embedding of the recovery-agent diagnosis-and-recovery pipeline:
the path extractor and repair rules of
`recovery_agent/self_repair/repair_generator.py`, the restoration engine of
`recovery_agent/restoration/engine.py`, the intelligence queries of
`recovery_agent/intel/queries.py`, and the CLI dispatch of
`recovery_agent/main.py`.
-/

/-! ## String containment (Python `in` operator) -/

/-- Whether `pat` occurs at the start of `cs` (Python `str.startswith` on char lists). -/
def startsWithChars : List Char → List Char → Bool
  | _, [] => true
  | [], _ :: _ => false
  | c :: cs, d :: ds => c = d && startsWithChars cs ds

/-- Whether `pat` occurs anywhere in `cs` (Python `pat in s`). -/
def containsChars : List Char → List Char → Bool
  | [], pat => startsWithChars [] pat
  | c :: cs, pat => startsWithChars (c :: cs) pat || containsChars cs pat

/-- Python substring test `pat in s`. -/
def strContains (s pat : String) : Bool := containsChars s.data pat.data

/-! ## PATH_REGEX (repair_generator.py line 22)

`PATH_REGEX = re.compile(r"""['"]?([a-zA-Z]:[\\/][^'"\s]+|/[^\s'"]+)['"]?""")`

`PATH_REGEX.search(msg)` returns the leftmost match; group 1 is either a
drive-letter path (`[a-zA-Z]:[\\/][^'"\s]+`) or an absolute POSIX path
(`/[^\s'"]+`). The optional surrounding quotes never change group 1: a
quote cannot begin either alternative, so the group found is the one at
the first index where an alternative matches. -/

/-- Python `\s` on `str` patterns: ASCII whitespace plus the Unicode
whitespace code points. -/
def isPyWhitespace (c : Char) : Bool :=
  c = ' ' || c = '\t' || c = '\n' || c = '\r' || c.toNat = 0x0b || c.toNat = 0x0c ||
  (0x1c ≤ c.toNat && c.toNat ≤ 0x1f) || c.toNat = 0x85 || c.toNat = 0xa0 ||
  c.toNat = 0x1680 || (0x2000 ≤ c.toNat && c.toNat ≤ 0x200a) ||
  c.toNat = 0x2028 || c.toNat = 0x2029 || c.toNat = 0x202f || c.toNat = 0x205f ||
  c.toNat = 0x3000

/-- The character class `[^'"\s]` excludes quotes and whitespace. -/
def isStopChar (c : Char) : Bool := c = '\'' || c = '"' || isPyWhitespace c

/-- Greedy `[^'"\s]+` body: the maximal run of non-stop characters. -/
def pathRun (cs : List Char) : List Char := cs.takeWhile (fun c => !isStopChar c)

/-- First regex alternative `[a-zA-Z]:[\\/][^'"\s]+` matched at the head of `cs`. -/
def matchDrivePath : List Char → Option (List Char)
  | c :: ':' :: s :: rest =>
    if c.isAlpha && (s = '\\' || s = '/') then
      match pathRun rest with
      | [] => none
      | run => some (c :: ':' :: s :: run)
    else none
  | _ => none

/-- Second regex alternative `/[^\s'"]+` matched at the head of `cs`. -/
def matchSlashPath : List Char → Option (List Char)
  | '/' :: rest =>
    match pathRun rest with
    | [] => none
    | run => some ('/' :: run)
  | _ => none

/-- `re.search` scan: try the alternation at every index, leftmost match wins,
first alternative preferred (their first characters are disjoint anyway). -/
def regexSearch : List Char → Option (List Char)
  | [] => none
  | c :: rest =>
    match matchDrivePath (c :: rest) with
    | some g => some g
    | none =>
      match matchSlashPath (c :: rest) with
      | some g => some g
      | none => regexSearch rest

/-- Group 1 of `PATH_REGEX.search(errorMessage)`, or `none` when the regex
does not match anywhere. -/
def extractPath (errorMessage : String) : Option String :=
  (regexSearch errorMessage.data).map (fun l => ⟨l⟩)

/-! ## PurePosixPath parsing (`str(Path(p).parent)` in repair_generator.py line 120)

`pathlib.PurePosixPath` splits on `/`, drops empty and `.` components, and
keeps a root of `//` for exactly two leading slashes, else `/` for one or
three-plus leading slashes. `str` is the root followed by the components
joined by `/`, or `.` when both are empty. `parent` drops the last
component. -/

/-- Split a char list on a separator (keeping empty groups). -/
def splitOnChar (sep : Char) : List Char → List (List Char)
  | [] => [[]]
  | c :: rest =>
    if c = sep then [] :: splitOnChar sep rest
    else
      match splitOnChar sep rest with
      | [] => [[c]]
      | g :: gs => (c :: g) :: gs

/-- The non-empty, non-`.` components of a POSIX path. -/
def componentsOf (cs : List Char) : List (List Char) :=
  (splitOnChar '/' cs).filter (fun g => decide (g ≠ [] ∧ g ≠ ['.']))

/-- The root of a POSIX path: `//` for exactly two leading slashes, `/` for
one or at least three, empty otherwise. -/
def rootOf (cs : List Char) : List Char :=
  if cs.take 3 = ['/', '/', '/'] then ['/']
  else if cs.take 2 = ['/', '/'] then ['/', '/']
  else if cs.take 1 = ['/'] then ['/']
  else []

/-- Join path components with `/`. -/
def joinComponents : List (List Char) → List Char
  | [] => []
  | [g] => g
  | g :: gs => g ++ '/' :: joinComponents gs

/-- `str(PurePosixPath(p).parent)`: drop the last component; a path with no
components is its own parent; an empty rendering is `.`. -/
def parentChars (cs : List Char) : List Char :=
  let s := rootOf cs ++ joinComponents (componentsOf cs).dropLast
  if s.isEmpty then ['.'] else s

/-- `str(Path(p).parent)` for the string path `p`. -/
def posixParent (p : String) : String := ⟨parentChars p.data⟩

/-- `PurePosixPath(p).name`: the last component, or empty. -/
def posixName (p : String) : String := ⟨(componentsOf p.data).getLastD []⟩

/-! ## RepairRule and its two variants (repair_generator.py) -/

/-- A repair rule: the two-method contract of the abstract class
`RepairRule` (`matches'` and `generate_script`, both over the error message
and an optional tenant). -/
structure RepairRule where
  matches' : String → Option String → Bool
  generate_script : String → Option String → String

/-- `PermissionErrorRule`: matches on the literal "Permission denied";
generates a header comment, a tenant-scoped `chown -R` line when the tenant
is truthy (Python `if tenant:` — present and non-empty), and a final
`chmod -R 755` command, or the sentinel comment when no path is
extractable. -/
def permissionErrorRule : RepairRule where
  matches' errorMessage _tenant := strContains errorMessage "Permission denied"
  generate_script errorMessage tenant :=
    match extractPath errorMessage with
    | none => "# Error: Could not extract a valid path from the 'Permission denied' message."
    | some path =>
      let script := "# Repariere Berechtigungsproblem für Pfad: " ++ path ++ "\n"
      let script :=
        match tenant with
        | some t =>
          if t = "" then script
          else script ++ "chown -R " ++ t ++ "_user:" ++ t ++ "_group " ++ path ++ "\n"
        | none => script
      script ++ "chmod -R 755 " ++ path

/-- `MissingDirectoryRule`: matches on the literal "No such file or
directory"; generates `mkdir -p` for the parent of the extracted path, or
the sentinel comment when no path is extractable. -/
def missingDirectoryRule : RepairRule where
  matches' errorMessage _tenant := strContains errorMessage "No such file or directory"
  generate_script errorMessage _tenant :=
    match extractPath errorMessage with
    | none => "# Error: Could not extract a valid path from the 'No such file or directory' message."
    | some path => "# Erstelle fehlendes Verzeichnis\nmkdir -p " ++ posixParent path

/-! ## RuleRegistry (repair_generator.py lines 124-172) -/

/-- `RuleRegistry`: an ordered list of registered rules. -/
structure RuleRegistry where
  rules : List RepairRule

/-- `RuleRegistry.register_rule`: appends (the `isinstance` check is
enforced by typing here). -/
def RuleRegistry.register_rule (reg : RuleRegistry) (rule : RepairRule) : RuleRegistry :=
  ⟨reg.rules ++ [rule]⟩

/-- The default message returned when no rule matches. -/
def noSuggestionMessage : String := "No repair suggestion found for the given error."

/-- First-match loop of `generate_script_suggestion` over a rule list. -/
def findFirstMatch (rules : List RepairRule) (errorMessage : String) (tenant : Option String) : String :=
  match rules with
  | [] => noSuggestionMessage
  | rule :: rest =>
    if rule.matches' errorMessage tenant then rule.generate_script errorMessage tenant
    else findFirstMatch rest errorMessage tenant

/-- `RuleRegistry.generate_script_suggestion`: first matching rule in
registration order wins; the default message when none matches. -/
def RuleRegistry.generate_script_suggestion (reg : RuleRegistry) (errorMessage : String)
    (tenant : Option String) : String :=
  findFirstMatch reg.rules errorMessage tenant

/-! ## RestorationEngine (restoration/engine.py)

The filesystem is abstracted by predicates; `run_restore` returns its
boolean result together with the ordered list of mutating effects it
performs (target-directory creation, file copies). -/

/-- The filesystem facts and behaviors `run_restore` consults. -/
structure FileSys where
  isDir : String → Bool
  pathExists : String → Bool
  globMatch : String → String → List String
  copyOk : String → String → Bool

/-- A mutating filesystem effect of `run_restore`. -/
inductive FsEffect where
  | mkdirTarget : String → FsEffect
  | copyFile : String → String → FsEffect
deriving DecidableEq

/-- `RestorationEngine.__init__`: backup source path, target directory,
optional encryption key, and the ordered backup-format pattern map. -/
structure RestorationEngine where
  backup_path : String
  target_dir : String
  encrypt_key : Option String
  patterns : List (String × String)

/-- The copy loop of `run_restore` (engine.py lines 61-66): `shutil.copy2`
each file into the target under its base name; an `OSError` aborts the
remaining copies and yields `false`, keeping the copies already made. -/
def copyLoop (fs : FileSys) (tgt : String) : List String → Bool × List FsEffect
  | [] => (true, [])
  | f :: rest =>
    if fs.copyOk f tgt then
      let r := copyLoop fs tgt rest
      (r.1, FsEffect.copyFile f (tgt ++ "/" ++ posixName f) :: r.2)
    else (false, [])

/-- `RestorationEngine.run_restore` (engine.py lines 28-69): fail when the
backup source is not a directory; fail when the target exists and is not a
directory; union the glob matches of every configured pattern; succeed with
no effects when the union is empty; otherwise create the target directory
and copy every matched file. -/
def RestorationEngine.run_restore (e : RestorationEngine) (fs : FileSys) : Bool × List FsEffect :=
  if !fs.isDir e.backup_path then (false, [])
  else if fs.pathExists e.target_dir && !fs.isDir e.target_dir then (false, [])
  else
    let files_to_restore := (e.patterns.map (fun kv => fs.globMatch e.backup_path kv.2)).flatten
    if files_to_restore.isEmpty then (true, [])
    else
      let r := copyLoop fs e.target_dir files_to_restore
      (r.1, FsEffect.mkdirTarget e.target_dir :: r.2)

/-! ## Intelligence queries (intel/queries.py) -/

/-- `get_last_stable_backup_path` (hardcoded stub). -/
def get_last_stable_backup_path : String := "/tmp/backups/2025-09-10_04-00-00_stable/"

/-- `get_codebase_version` (hardcoded stub). -/
def get_codebase_version : String := "v1.3.5"

/-- `get_backup_version` (hardcoded stub). -/
def get_backup_version (_backup_path : String) : String := "v1.2.4"

/-- `get_migration_plan` (stub with one known migration path). -/
def get_migration_plan (from_version to_version : String) : List String :=
  if from_version = "v1.2.4" && to_version = "v1.3.5" then
    ["migrate_v1.2.4_to_v1.3.0.py", "migrate_v1.3.0_to_v1.3.5.py"]
  else []

/-- The intelligence-source collaborator contract consumed by the
orchestration (the four query methods of intel/queries.py, abstracted so a
run can be considered for any answers the collaborator returns). -/
structure IntelSource where
  last_stable_backup_path : String
  codebase_version : String
  backup_version : String → String
  migration_plan : String → String → List String

/-- The concrete collaborator implemented by intel/queries.py. -/
def defaultIntelSource : IntelSource where
  last_stable_backup_path := get_last_stable_backup_path
  codebase_version := get_codebase_version
  backup_version := get_backup_version
  migration_plan := get_migration_plan

/-! ## CLI dispatch (main.py)

Python attribute lookup on a `RuleRegistry` instance is modelled
explicitly: the class body defines `__init__` (attribute `_rules`),
`register_rule`, and `generate_script_suggestion`, and nothing else.
An exception that escapes `main` makes the interpreter terminate the
process with exit code 1; `sys.exit(n)` terminates it with exit code `n`. -/

/-- An exception of the modelled Python fragment. -/
inductive PyError where
  | attributeError : String → String → PyError
  | systemExit : Nat → PyError
deriving DecidableEq

/-- The attribute names defined on `RuleRegistry` instances
(repair_generator.py lines 133-172). -/
def ruleRegistryAttrNames : List String :=
  ["_rules", "register_rule", "generate_script_suggestion"]

/-- Attribute lookup for the `(error_message, tenant)`-shaped methods of
`RuleRegistry`: only `generate_script_suggestion` exists. -/
def ruleRegistryLookupMethod (name : String) :
    Option (RuleRegistry → String → Option String → String) :=
  if name = "generate_script_suggestion" then some RuleRegistry.generate_script_suggestion
  else none

/-- The registry built by the repair and intelligent-restore actions
(main.py lines 86-88 and 110-112): `PermissionErrorRule` then
`MissingDirectoryRule`, in that order. -/
def defaultRegistry : RuleRegistry :=
  ((RuleRegistry.mk []).register_rule permissionErrorRule).register_rule missingDirectoryRule

/-- The `repair` action body (main.py lines 85-100): build the default
registry, then evaluate `registry.find_repair(error_content, tenant=...)`
— an attribute lookup on the registry followed by a call. -/
def repairAction (errorContent : String) (tenant : Option String) : Except PyError String :=
  match ruleRegistryLookupMethod "find_repair" with
  | some f => Except.ok (f defaultRegistry errorContent tenant)
  | none => Except.error (PyError.attributeError "RuleRegistry" "find_repair")

/-- Steps 2 and 3 of the `intelligent-restore` action (main.py lines
128-159): gather the three intelligence facts; when the backup version
equals the codebase version, announce a direct-restore plan (the
`RestorationEngine` delegation is commented out in the source); otherwise
query the migration plan, calling `sys.exit(1)` when it is empty and
otherwise merely simulating the migrated restore. The two booleans record
whether `migration_plan` was queried and whether a `RestorationEngine` was
run. -/
def formulatePlanAndExecute (intel : IntelSource) : Except PyError Unit × Bool × Bool :=
  let stable_backup_path := intel.last_stable_backup_path
  let current_version := intel.codebase_version
  let backup_version := intel.backup_version stable_backup_path
  if backup_version = current_version then
    (Except.ok (), false, false)
  else
    let migration_scripts := intel.migration_plan backup_version current_version
    if migration_scripts.isEmpty then (Except.error (PyError.systemExit 1), true, false)
    else (Except.ok (), true, false)

/-- The `intelligent-restore` action body (main.py lines 102-159): step 1
evaluates `registry.find_repair(error_content, tenant=...)`; only if that
attribute lookup succeeded would the run reach steps 2 and 3. -/
def intelligentRestoreAction (intel : IntelSource) (_errorContent : String)
    (_tenant : Option String) : Except PyError Unit × Bool × Bool :=
  match ruleRegistryLookupMethod "find_repair" with
  | some _f => formulatePlanAndExecute intel
  | none => (Except.error (PyError.attributeError "RuleRegistry" "find_repair"), false, false)

/-- Process exit code of a run of `sys.exit(main())` whose action body
produced the given result: `main` returns 0 when the body completes,
`sys.exit(n)` exits with `n`, and any other uncaught exception makes the
interpreter exit with code 1. -/
def processExitCode : Except PyError Unit → Nat
  | Except.ok _ => 0
  | Except.error (PyError.systemExit n) => n
  | Except.error (PyError.attributeError _ _) => 1

/-- Outcome of one `intelligent-restore` process run: exit code, whether
`migration_plan` was queried, whether a `RestorationEngine` ran. -/
def intelligentRestoreProcess (intel : IntelSource) (errorContent : String)
    (tenant : Option String) : Nat × Bool × Bool :=
  let r := intelligentRestoreAction intel errorContent tenant
  (processExitCode r.1, r.2)

/-! ## Helper lemmas -/

/-- String data of a concatenation. -/
theorem strData_append (a b : String) : (a ++ b).data = a.data ++ b.data := by
  cases a; cases b; rfl

/-- String concatenation is associative. -/
theorem strAppend_assoc (a b c : String) : a ++ b ++ c = a ++ (b ++ c) := by
  apply String.ext
  simp [strData_append]

/-- The first-match loop returns the default message when no rule matches. -/
theorem findFirstMatch_of_no_match (rules : List RepairRule) (m : String) (t : Option String)
    (h : ∀ r ∈ rules, r.matches' m t = false) :
    findFirstMatch rules m t = noSuggestionMessage := by
  induction rules with
  | nil => rfl
  | cons r rest ih =>
    have hr := h r (List.mem_cons_self r rest)
    simp only [findFirstMatch, hr, Bool.false_eq_true, if_false]
    exact ih (fun r' hr' => h r' (List.mem_cons_of_mem r hr'))

/-! ## Claims -/

/-- Claim C1: for every registry holding rules [R1, R2] in registration
order and every log string and optional tenant such that both rules match,
`generate_script_suggestion` returns R1's generated script, and later rules
are never consulted: the result is unchanged under any replacement of R2's
generator. Determinism holds because the dispatch is a pure function. -/
theorem claim1_registry_first_match_wins (r1 r2 : RepairRule) (log : String) (tenant : Option String)
    (h1 : r1.matches' log tenant = true) (_h2 : r2.matches' log tenant = true) :
    (((RuleRegistry.mk []).register_rule r1).register_rule r2).generate_script_suggestion log tenant
      = r1.generate_script log tenant ∧
    ∀ g2 : String → Option String → String,
      (((RuleRegistry.mk []).register_rule r1).register_rule ⟨r2.matches', g2⟩).generate_script_suggestion log tenant
        = r1.generate_script log tenant := by
  constructor
  · simp [RuleRegistry.register_rule, RuleRegistry.generate_script_suggestion, findFirstMatch, h1]
  · intro g2
    simp [RuleRegistry.register_rule, RuleRegistry.generate_script_suggestion, findFirstMatch, h1]

/-- Witness for C1 at a concrete log matched by both default rules. -/
theorem claim1_witness :
    permissionErrorRule.matches' "Permission denied: No such file or directory" none = true ∧
    missingDirectoryRule.matches' "Permission denied: No such file or directory" none = true ∧
    ((((RuleRegistry.mk []).register_rule permissionErrorRule).register_rule
        missingDirectoryRule).generate_script_suggestion
        "Permission denied: No such file or directory" none
      = permissionErrorRule.generate_script "Permission denied: No such file or directory" none ∧
     ∀ g2 : String → Option String → String,
      ((((RuleRegistry.mk []).register_rule permissionErrorRule).register_rule
          ⟨missingDirectoryRule.matches', g2⟩).generate_script_suggestion
          "Permission denied: No such file or directory" none
        = permissionErrorRule.generate_script "Permission denied: No such file or directory" none)) :=
  ⟨by decide, by decide,
    claim1_registry_first_match_wins permissionErrorRule missingDirectoryRule
      "Permission denied: No such file or directory" none (by decide) (by decide)⟩

/-- Claim C9: for every registry, log string, and optional tenant such that
no registered rule matches, `generate_script_suggestion` returns the
distinguished no-suggestion message as a normal `String` result (the
embedding is a total function: no exception is raised). -/
theorem claim9_no_match_returns_default (reg : RuleRegistry) (log : String) (tenant : Option String)
    (h : ∀ r ∈ reg.rules, r.matches' log tenant = false) :
    reg.generate_script_suggestion log tenant = noSuggestionMessage :=
  findFirstMatch_of_no_match reg.rules log tenant h

/-- Witness for C9: the default registry on a log neither rule matches. -/
theorem claim9_witness :
    (∀ r ∈ defaultRegistry.rules,
      r.matches' "ERROR: Database connection timed out after 3000ms." none = false) ∧
    defaultRegistry.generate_script_suggestion
      "ERROR: Database connection timed out after 3000ms." none = noSuggestionMessage :=
  ⟨by decide,
    claim9_no_match_returns_default defaultRegistry
      "ERROR: Database connection timed out after 3000ms." none (by decide)⟩

/-- Claim C8: for every log string on which a rule matches but no
path-shaped substring is extractable, the rule's generator returns its
sentinel comment-only script; both variants are total functions (no
exception can be raised). -/
theorem claim8_extraction_failure_sentinel (log : String) (tenant : Option String)
    (hnone : extractPath log = none) :
    (permissionErrorRule.matches' log tenant = true →
      permissionErrorRule.generate_script log tenant =
        "# Error: Could not extract a valid path from the 'Permission denied' message.") ∧
    (missingDirectoryRule.matches' log tenant = true →
      missingDirectoryRule.generate_script log tenant =
        "# Error: Could not extract a valid path from the 'No such file or directory' message.") := by
  constructor
  · intro _hm
    simp [permissionErrorRule, hnone]
  · intro _hm
    simp [missingDirectoryRule, hnone]

/-- Witness for C8: a log matching both rules with no extractable path. -/
theorem claim8_witness :
    extractPath "Permission denied: No such file or directory." = none ∧
    permissionErrorRule.generate_script "Permission denied: No such file or directory." none =
      "# Error: Could not extract a valid path from the 'Permission denied' message." ∧
    missingDirectoryRule.generate_script "Permission denied: No such file or directory." none =
      "# Error: Could not extract a valid path from the 'No such file or directory' message." :=
  ⟨by decide,
    (claim8_extraction_failure_sentinel "Permission denied: No such file or directory." none
      (by decide)).1 (by decide),
    (claim8_extraction_failure_sentinel "Permission denied: No such file or directory." none
      (by decide)).2 (by decide)⟩

/-- Claim C10: `RuleRegistry` defines no attribute `find_repair` (only
`register_rule` and `generate_script_suggestion`), so the dispatch
`registry.find_repair(...)` of the repair and intelligent-restore CLI
actions always fails with an `AttributeError` and these actions never
return a repair suggestion. -/
theorem claim10_find_repair_attribute_error :
    ruleRegistryLookupMethod "find_repair" = none ∧
    "find_repair" ∉ ruleRegistryAttrNames ∧
    (∀ (ec : String) (t : Option String),
      repairAction ec t = Except.error (PyError.attributeError "RuleRegistry" "find_repair")) ∧
    (∀ (intel : IntelSource) (ec : String) (t : Option String),
      (intelligentRestoreAction intel ec t).1 =
        Except.error (PyError.attributeError "RuleRegistry" "find_repair")) :=
  ⟨rfl, by decide, fun _ _ => rfl, fun _ _ _ => rfl⟩

/-- Claim C2: for every intelligent-restore run whose backup version
differs from the codebase version and whose migration-plan query returns
the empty list, the process terminates with a non-zero exit code and no
`RestorationEngine` runs. In the source this holds doubly: the action
aborts at the quick-fix step with an uncaught `AttributeError` (process
exit code 1), and even the planning phase itself hits `sys.exit(1)` on an
empty migration plan while never constructing an engine. -/
theorem claim2_no_migration_path_fatal (intel : IntelSource) (ec : String) (t : Option String)
    (hneq : intel.backup_version intel.last_stable_backup_path ≠ intel.codebase_version)
    (hempty : intel.migration_plan (intel.backup_version intel.last_stable_backup_path)
        intel.codebase_version = []) :
    (intelligentRestoreProcess intel ec t).1 ≠ 0 ∧
    (intelligentRestoreProcess intel ec t).2.2 = false ∧
    formulatePlanAndExecute intel = (Except.error (PyError.systemExit 1), true, false) := by
  refine ⟨by simp [intelligentRestoreProcess, intelligentRestoreAction,
    ruleRegistryLookupMethod, processExitCode], by simp [intelligentRestoreProcess,
    intelligentRestoreAction, ruleRegistryLookupMethod], ?_⟩
  simp [formulatePlanAndExecute, hneq, hempty]

/-- Witness for C2: a collaborator answering backup version "1.0",
codebase version "2.0", and an empty migration plan. -/
theorem claim2_witness :
    (IntelSource.mk "/tmp/backups/stable" "2.0" (fun _ => "1.0") (fun _ _ => [])).backup_version
        (IntelSource.mk "/tmp/backups/stable" "2.0" (fun _ => "1.0") (fun _ _ => [])).last_stable_backup_path
      ≠ (IntelSource.mk "/tmp/backups/stable" "2.0" (fun _ => "1.0") (fun _ _ => [])).codebase_version ∧
    ((intelligentRestoreProcess (IntelSource.mk "/tmp/backups/stable" "2.0" (fun _ => "1.0") (fun _ _ => []))
        "boot failure log" none).1 ≠ 0 ∧
     (intelligentRestoreProcess (IntelSource.mk "/tmp/backups/stable" "2.0" (fun _ => "1.0") (fun _ _ => []))
        "boot failure log" none).2.2 = false ∧
     formulatePlanAndExecute (IntelSource.mk "/tmp/backups/stable" "2.0" (fun _ => "1.0") (fun _ _ => []))
       = (Except.error (PyError.systemExit 1), true, false)) :=
  ⟨by decide,
    claim2_no_migration_path_fatal
      (IntelSource.mk "/tmp/backups/stable" "2.0" (fun _ => "1.0") (fun _ _ => []))
      "boot failure log" none (by decide) rfl⟩

/-- Counterexample to claim C3 as stated: with a collaborator reporting
equal backup and codebase versions ("v1.3.5"), the intelligent-restore run
does not query the migration plan but also never delegates to a
`RestorationEngine` — not at the process level (the run dies on the
`find_repair` `AttributeError`) and not even in the planning phase, where
the engine delegation is commented out in the source. -/
theorem claim3_counterexample :
    ¬ ((intelligentRestoreProcess
          (IntelSource.mk "/tmp/backups/stable" "v1.3.5" (fun _ => "v1.3.5") (fun _ _ => []))
          "boot failure log" none).2.2 = true ∨
       (formulatePlanAndExecute
          (IntelSource.mk "/tmp/backups/stable" "v1.3.5" (fun _ => "v1.3.5") (fun _ _ => []))).2.2 = true) := by
  decide

/-- Claim C3 as amended: for every intelligent-restore run whose backup
version equals the codebase version, the migration plan is never queried
and no `RestorationEngine` delegation occurs: the planning phase announces
a direct-restore plan and completes without effects (the engine call is
commented out in the source), and the process-level run aborts even
earlier on the `find_repair` attribute error. -/
theorem claim3_direct_restore_no_migration_query (intel : IntelSource) (ec : String)
    (t : Option String)
    (heq : intel.backup_version intel.last_stable_backup_path = intel.codebase_version) :
    (intelligentRestoreProcess intel ec t).2.1 = false ∧
    (intelligentRestoreProcess intel ec t).2.2 = false ∧
    formulatePlanAndExecute intel = (Except.ok (), false, false) := by
  refine ⟨by simp [intelligentRestoreProcess, intelligentRestoreAction, ruleRegistryLookupMethod],
    by simp [intelligentRestoreProcess, intelligentRestoreAction, ruleRegistryLookupMethod], ?_⟩
  simp [formulatePlanAndExecute, heq]

/-- Witness for the amended C3 at a collaborator reporting version
"v1.3.5" on both sides. -/
theorem claim3_witness :
    (IntelSource.mk "/tmp/backups/stable" "v1.3.5" (fun _ => "v1.3.5") (fun _ _ => [])).backup_version
        (IntelSource.mk "/tmp/backups/stable" "v1.3.5" (fun _ => "v1.3.5") (fun _ _ => [])).last_stable_backup_path
      = (IntelSource.mk "/tmp/backups/stable" "v1.3.5" (fun _ => "v1.3.5") (fun _ _ => [])).codebase_version ∧
    ((intelligentRestoreProcess
        (IntelSource.mk "/tmp/backups/stable" "v1.3.5" (fun _ => "v1.3.5") (fun _ _ => []))
        "boot failure log" none).2.1 = false ∧
     (intelligentRestoreProcess
        (IntelSource.mk "/tmp/backups/stable" "v1.3.5" (fun _ => "v1.3.5") (fun _ _ => []))
        "boot failure log" none).2.2 = false ∧
     formulatePlanAndExecute
        (IntelSource.mk "/tmp/backups/stable" "v1.3.5" (fun _ => "v1.3.5") (fun _ _ => []))
       = (Except.ok (), false, false)) :=
  ⟨rfl,
    claim3_direct_restore_no_migration_query
      (IntelSource.mk "/tmp/backups/stable" "v1.3.5" (fun _ => "v1.3.5") (fun _ _ => []))
      "boot failure log" none rfl⟩

/-- Claim C6: for every `RestorationEngine` whose backup source path is not
a directory, `run_restore` returns false with no effects — in particular
the target directory is never created; as a pure function of the
filesystem facts, every call gives this same result. -/
theorem claim6_missing_source_fails_without_effects (e : RestorationEngine) (fs : FileSys)
    (h : fs.isDir e.backup_path = false) :
    e.run_restore fs = (false, []) ∧
    FsEffect.mkdirTarget e.target_dir ∉ (e.run_restore fs).2 := by
  have hrun : e.run_restore fs = (false, []) := by
    simp [RestorationEngine.run_restore, h]
  exact ⟨hrun, by simp [hrun]⟩

/-- Witness for C6: a filesystem with no directories at all. -/
theorem claim6_witness :
    (FileSys.mk (fun _ => false) (fun _ => false) (fun _ _ => []) (fun _ _ => true)).isDir
        (RestorationEngine.mk "/tmp/backup" "/opt/app" none [("db", "*.sql")]).backup_path = false ∧
    ((RestorationEngine.mk "/tmp/backup" "/opt/app" none [("db", "*.sql")]).run_restore
        (FileSys.mk (fun _ => false) (fun _ => false) (fun _ _ => []) (fun _ _ => true))
      = (false, []) ∧
     FsEffect.mkdirTarget
        (RestorationEngine.mk "/tmp/backup" "/opt/app" none [("db", "*.sql")]).target_dir ∉
      ((RestorationEngine.mk "/tmp/backup" "/opt/app" none [("db", "*.sql")]).run_restore
        (FileSys.mk (fun _ => false) (fun _ => false) (fun _ _ => []) (fun _ _ => true))).2) :=
  ⟨rfl,
    claim6_missing_source_fails_without_effects
      (RestorationEngine.mk "/tmp/backup" "/opt/app" none [("db", "*.sql")])
      (FileSys.mk (fun _ => false) (fun _ => false) (fun _ _ => []) (fun _ _ => true)) rfl⟩

/-- Claim C7: for every `RestorationEngine` whose backup source is a
directory and whose target path is not an existing non-directory, if the
union of the glob matches of all configured patterns is empty then
`run_restore` returns true with no effects — success with nothing to do,
no file copied. -/
theorem claim7_empty_union_succeeds_without_copies (e : RestorationEngine) (fs : FileSys)
    (h1 : fs.isDir e.backup_path = true)
    (h2 : (fs.pathExists e.target_dir && !fs.isDir e.target_dir) = false)
    (h3 : (e.patterns.map (fun kv => fs.globMatch e.backup_path kv.2)).flatten = []) :
    e.run_restore fs = (true, []) ∧
    ∀ src dst : String, FsEffect.copyFile src dst ∉ (e.run_restore fs).2 := by
  have hrun : e.run_restore fs = (true, []) := by
    simp [RestorationEngine.run_restore, h1, h2, h3]
  exact ⟨hrun, fun src dst => by simp [hrun]⟩

/-- Witness for C7: a backup directory exists, the target is absent, and
both configured patterns match nothing. -/
theorem claim7_witness :
    (FileSys.mk (fun p => p = "/tmp/backup") (fun _ => false) (fun _ _ => []) (fun _ _ => true)).isDir
        (RestorationEngine.mk "/tmp/backup" "/opt/app" none
          [("db", "*.sql"), ("logs", "*.log")]).backup_path = true ∧
    ((RestorationEngine.mk "/tmp/backup" "/opt/app" none
        [("db", "*.sql"), ("logs", "*.log")]).run_restore
        (FileSys.mk (fun p => p = "/tmp/backup") (fun _ => false) (fun _ _ => []) (fun _ _ => true))
      = (true, []) ∧
     ∀ src dst : String, FsEffect.copyFile src dst ∉
      ((RestorationEngine.mk "/tmp/backup" "/opt/app" none
          [("db", "*.sql"), ("logs", "*.log")]).run_restore
        (FileSys.mk (fun p => p = "/tmp/backup") (fun _ => false) (fun _ _ => []) (fun _ _ => true))).2) :=
  ⟨by simp,
    claim7_empty_union_succeeds_without_copies
      (RestorationEngine.mk "/tmp/backup" "/opt/app" none [("db", "*.sql"), ("logs", "*.log")])
      (FileSys.mk (fun p => p = "/tmp/backup") (fun _ => false) (fun _ _ => []) (fun _ _ => true))
      (by simp) rfl rfl⟩

/-- Counterexample to claim C4 as stated: supplying the empty-string
tenant at a log with an extractable path yields an output with no `chown`
command at all — the source guards the ownership line with Python
truthiness (`if tenant:`, repair_generator.py line 86), which is false for
an empty tenant string. -/
theorem claim4_counterexample :
    extractPath "CRITICAL: Permission denied for '/srv/acme/file.zip'" =
      some "/srv/acme/file.zip" ∧
    strContains
      (permissionErrorRule.generate_script
        "CRITICAL: Permission denied for '/srv/acme/file.zip'" (some ""))
      "chown" = false := by
  constructor <;> decide

/-- Claim C4 as amended: for every log string containing "Permission
denied" from which a path `p` is extractable, the permission rule's output
ends in a `chmod -R 755` command referencing exactly `p`; with a non-empty
tenant `t` it also contains the `chown -R t_user:t_group p` command,
placed before the mode command (an empty tenant is falsy for the source's
`if tenant:` guard and produces no ownership command). -/
theorem claim4_permission_script_structure (log p : String)
    (_hm : permissionErrorRule.matches' log none = true)
    (hp : extractPath log = some p) :
    (∃ pre, permissionErrorRule.generate_script log none = pre ++ ("chmod -R 755 " ++ p)) ∧
    ∀ t : String, t ≠ "" → ∃ pre,
      permissionErrorRule.generate_script log (some t) =
        pre ++ ("chown -R " ++ t ++ "_user:" ++ t ++ "_group " ++ p ++ "\n" ++
          ("chmod -R 755 " ++ p)) := by
  constructor
  · refine ⟨"# Repariere Berechtigungsproblem für Pfad: " ++ p ++ "\n", ?_⟩
    apply String.ext
    simp [permissionErrorRule, hp, strData_append, List.append_assoc]
  · intro t ht
    refine ⟨"# Repariere Berechtigungsproblem für Pfad: " ++ p ++ "\n", ?_⟩
    apply String.ext
    simp [permissionErrorRule, hp, ht, strData_append, List.append_assoc]

/-- Witness for the amended C4 on the scenario log from the spec, with the
non-empty tenant "acme". -/
theorem claim4_witness :
    permissionErrorRule.matches' "CRITICAL: Permission denied for '/srv/acme/file.zip'" none = true ∧
    extractPath "CRITICAL: Permission denied for '/srv/acme/file.zip'" = some "/srv/acme/file.zip" ∧
    ("acme" : String) ≠ "" ∧
    (∃ pre, permissionErrorRule.generate_script
        "CRITICAL: Permission denied for '/srv/acme/file.zip'" none =
        pre ++ ("chmod -R 755 " ++ "/srv/acme/file.zip")) ∧
    (∃ pre, permissionErrorRule.generate_script
        "CRITICAL: Permission denied for '/srv/acme/file.zip'" (some "acme") =
        pre ++ ("chown -R " ++ "acme" ++ "_user:" ++ "acme" ++ "_group " ++ "/srv/acme/file.zip" ++
          "\n" ++ ("chmod -R 755 " ++ "/srv/acme/file.zip"))) :=
  ⟨by decide, by decide, by decide,
    (claim4_permission_script_structure "CRITICAL: Permission denied for '/srv/acme/file.zip'"
      "/srv/acme/file.zip" (by decide) (by decide)).1,
    (claim4_permission_script_structure "CRITICAL: Permission denied for '/srv/acme/file.zip'"
      "/srv/acme/file.zip" (by decide) (by decide)).2 "acme" (by decide)⟩

/-- Splitting at a leading separator emits an empty group. -/
theorem splitOnChar_cons_sep (sep : Char) (rest : List Char) :
    splitOnChar sep (sep :: rest) = [] :: splitOnChar sep rest := by
  simp [splitOnChar]

/-- Splitting a list without the separator yields the single group. -/
theorem splitOnChar_of_not_mem (sep : Char) (a : List Char) (h : sep ∉ a) :
    splitOnChar sep a = [a] := by
  induction a with
  | nil => rfl
  | cons c rest ih =>
    have hc : c ≠ sep := by rintro rfl; exact h (List.mem_cons_self _ _)
    have hrest : sep ∉ rest := fun hm => h (List.mem_cons_of_mem _ hm)
    simp [splitOnChar, hc, ih hrest]

/-- Splitting past a separator-free group peels it off. -/
theorem splitOnChar_append_sep (sep : Char) (a rest : List Char) (h : sep ∉ a) :
    splitOnChar sep (a ++ sep :: rest) = a :: splitOnChar sep rest := by
  induction a with
  | nil => simp [splitOnChar]
  | cons c a' ih =>
    have hc : c ≠ sep := by rintro rfl; exact h (List.mem_cons_self _ _)
    have ha' : sep ∉ a' := fun hm => h (List.mem_cons_of_mem _ hm)
    simp [splitOnChar, hc, ih ha']

/-- `str(PurePosixPath(p).parent)` for a three-component absolute path
`/a/b/c` with clean components: the parent `/a/b`. -/
theorem parentChars_three (a0 : Char) (a1 b c : List Char)
    (ha0 : a0 ≠ '/') (hsa : ('/' : Char) ∉ a1) (hda : a0 :: a1 ≠ ['.'])
    (hb : b ≠ []) (hsb : ('/' : Char) ∉ b) (hdb : b ≠ ['.'])
    (hc : c ≠ []) (hsc : ('/' : Char) ∉ c) (hdc : c ≠ ['.']) :
    parentChars ('/' :: a0 :: (a1 ++ '/' :: (b ++ '/' :: c))) = '/' :: a0 :: (a1 ++ '/' :: b) := by
  have hsa' : ('/' : Char) ∉ a0 :: a1 := by
    intro hm
    rcases List.mem_cons.mp hm with h | h
    · exact ha0 h.symm
    · exact hsa h
  have hsplit : splitOnChar '/' ('/' :: a0 :: (a1 ++ '/' :: (b ++ '/' :: c))) =
      [] :: (a0 :: a1) :: b :: [c] := by
    rw [splitOnChar_cons_sep,
      show a0 :: (a1 ++ '/' :: (b ++ '/' :: c)) = (a0 :: a1) ++ '/' :: (b ++ '/' :: c) from rfl,
      splitOnChar_append_sep '/' _ _ hsa', splitOnChar_append_sep '/' _ _ hsb,
      splitOnChar_of_not_mem '/' _ hsc]
  have hcomps : componentsOf ('/' :: a0 :: (a1 ++ '/' :: (b ++ '/' :: c))) =
      [a0 :: a1, b, c] := by
    simp only [componentsOf]
    rw [hsplit]
    simp [List.filter, hda, hb, hdb, hc, hdc]
  have hroot : rootOf ('/' :: a0 :: (a1 ++ '/' :: (b ++ '/' :: c))) = ['/'] := by
    simp [rootOf, ha0]
  simp only [parentChars]
  rw [hcomps, hroot]
  simp [joinComponents, List.dropLast]

/-- Claim C5: for every log string containing "No such file or directory"
from which a path of the form `/a/b/c` (three clean components, e.g.
`/a/b/c.ext`) is extractable, the missing-directory rule's output is a
single recursive-creation command `mkdir -p` for the parent `/a/b`, which
differs from the full extracted path — so a creation command is produced
for the parent and never for the full path itself. -/
theorem claim5_missing_dir_creates_parent (log a b c p : String) (tenant : Option String)
    (_hm : missingDirectoryRule.matches' log tenant = true)
    (hp : extractPath log = some p)
    (hform : p = "/" ++ a ++ "/" ++ b ++ "/" ++ c)
    (ha : a.data ≠ []) (hsa : ('/' : Char) ∉ a.data) (hda : a.data ≠ ['.'])
    (hb : b.data ≠ []) (hsb : ('/' : Char) ∉ b.data) (hdb : b.data ≠ ['.'])
    (hc : c.data ≠ []) (hsc : ('/' : Char) ∉ c.data) (hdc : c.data ≠ ['.']) :
    missingDirectoryRule.generate_script log tenant =
      "# Erstelle fehlendes Verzeichnis\nmkdir -p " ++ posixParent p ∧
    posixParent p = "/" ++ a ++ "/" ++ b ∧
    posixParent p ≠ p := by
  obtain ⟨a0, a1, hA⟩ := List.exists_cons_of_ne_nil ha
  have ha0 : a0 ≠ '/' := by
    rintro rfl
    exact hsa (hA ▸ List.mem_cons_self _ _)
  have hsa1 : ('/' : Char) ∉ a1 := fun hm => hsa (hA ▸ List.mem_cons_of_mem _ hm)
  have hda' : a0 :: a1 ≠ ['.'] := hA ▸ hda
  have hdata : p.data = '/' :: a0 :: (a1 ++ '/' :: (b.data ++ '/' :: c.data)) := by
    subst hform
    simp [strData_append, List.append_assoc, hA]
  have hparent : posixParent p = "/" ++ a ++ "/" ++ b := by
    apply String.ext
    show parentChars p.data = _
    rw [hdata, parentChars_three a0 a1 b.data c.data ha0 hsa1 hda' hb hsb hdb hc hsc hdc]
    simp [strData_append, List.append_assoc, hA]
  refine ⟨by simp [missingDirectoryRule, hp], hparent, ?_⟩
  rw [hparent, hform]
  intro heq
  have hlen := congrArg (fun s : String => s.data.length) heq
  simp [strData_append] at hlen

/-- Witness for C5 on a concrete missing-file log. -/
theorem claim5_witness :
    missingDirectoryRule.matches'
      "ERROR: No such file or directory: '/opt/app/daily.csv'" none = true ∧
    extractPath "ERROR: No such file or directory: '/opt/app/daily.csv'" =
      some "/opt/app/daily.csv" ∧
    (missingDirectoryRule.generate_script
        "ERROR: No such file or directory: '/opt/app/daily.csv'" none =
      "# Erstelle fehlendes Verzeichnis\nmkdir -p " ++ posixParent "/opt/app/daily.csv" ∧
     posixParent "/opt/app/daily.csv" = "/" ++ "opt" ++ "/" ++ "app" ∧
     posixParent "/opt/app/daily.csv" ≠ "/opt/app/daily.csv") :=
  ⟨by decide, by decide,
    claim5_missing_dir_creates_parent
      "ERROR: No such file or directory: '/opt/app/daily.csv'" "opt" "app" "daily.csv"
      "/opt/app/daily.csv" none (by decide) (by decide) (by decide)
      (by decide) (by decide) (by decide)
      (by decide) (by decide) (by decide)
      (by decide) (by decide) (by decide)⟩
